import Mathlib

/-
Verification of scripts/optimize-data.py (ModelCards repository).

The script loads a CSV into a pandas DataFrame, builds a "table" projection
(allow-listed columns, two text columns truncated, a row_id column added),
a "detail" projection (table columns plus a second allow-list, subsampled
to max_detail_rows with random_state 42 when larger, row_id column added),
writes both as CSV, gzips the exact CSV bytes, best-effort writes Parquet,
and writes a JSON manifest (data_index.json).

The shallow embedding below follows the source line by line.  Cells are
strings, naturals (the row_id values) or NaN; a DataFrame is a column-name
list together with index-labelled rows.  pandas read_csv yields the default
RangeIndex 0..N-1, and DataFrame.sample keeps the original index labels of
the selected rows; both facts are part of the embedding.
-/

namespace OptimizeData

/-- A cell of the loaded DataFrame: missing value (NaN), a string, or a
natural number (the row_id values the script assigns from the index). -/
inductive Cell where
  | na : Cell
  | str (s : String) : Cell
  | nat (n : Nat) : Cell
deriving DecidableEq

/-- Python str() as applied by astype(str): NaN prints as "nan". -/
def pyStr : Cell → String
  | Cell.na => "nan"
  | Cell.str s => s
  | Cell.nat n => toString n

/-- Python string slicing s[:k]: the first k characters. -/
def strTake (s : String) (k : Nat) : String :=
  String.mk (s.data.take k)

/-- A pandas DataFrame: column names, and rows carrying their index label
(a natural, since the script only ever has the default RangeIndex or a
sample of it) together with the cells aligned with the column list. -/
structure DataFrame where
  cols : List String
  rows : List (Nat × List Cell)
deriving DecidableEq

/-- TABLE_COLUMNS from the script (lines 18-29). -/
def TABLE_COLUMNS : List String :=
  ["prompt",
   "model",
   "type",
   "impact",
   "unexpected_behavior",
   "property_description_coarse_cluster_label",
   "property_description_fine_cluster_label",
   "property_description",
   "category",
   "evidence"]

/-- DETAIL_COLUMNS from the script (lines 32-43). -/
def DETAIL_COLUMNS : List String :=
  ["model_1_response",
   "model_2_response",
   "model_1_name",
   "model_2_name",
   "differences",
   "parsed_differences",
   "parse_error",
   "reason",
   "property_description_coarse_cluster_id",
   "property_description_fine_cluster_id"]

/-- Reading one cell of a row by column name: the cell aligned with the
first occurrence of the name, NaN when the name is absent or the row is
short.  Models df[col] access for a single row. -/
def getCell : List String → List Cell → String → Cell
  | [], _, _ => Cell.na
  | _ :: _, [], _ => Cell.na
  | c :: cs, v :: vs, target => if c = target then v else getCell cs vs target

/-- Applying a function to the cell of the first column with the given
name, leaving the row unchanged when the name is absent.  Models a
whole-column assignment df[col] = df[col].map f restricted to one row. -/
def mapCell : List String → List Cell → String → (Cell → Cell) → List Cell
  | [], vs, _, _ => vs
  | _ :: _, [], _, _ => []
  | c :: cs, v :: vs, target, f =>
      if c = target then f v :: vs else v :: mapCell cs vs target f

/-- pd.read_csv (line 57): the parsed CSV becomes a DataFrame whose rows
are labelled with the default RangeIndex 0..N-1. -/
def readCsv (cols : List String) (data : List (List Cell)) : DataFrame :=
  ⟨cols, (List.range data.length).map (fun i => (i, data.getD i []))⟩

/-- Column projection df[sel].copy() (lines 67 and 86): keeps every row
and its index label, re-reading the selected columns by name. -/
def selectCols (df : DataFrame) (sel : List String) : DataFrame :=
  ⟨sel, df.rows.map (fun r => (r.1, sel.map (getCell df.cols r.2)))⟩

/-- df[row_id] = df.index (lines 70 and 93): appends a row_id column whose
value in each row is that row index label.  In the script the assigned
series is the frame own index (table_df shares df.index; detail_df uses
its own), so the value is the label in both uses.  The row_id name is
never in either allow-list, so the assignment always creates a new column
at the end. -/
def addRowId (df : DataFrame) : DataFrame :=
  ⟨df.cols ++ ["row_id"], df.rows.map (fun r => (r.1, r.2 ++ [Cell.nat r.1]))⟩

/-- astype(str).str[:k] applied to one cell (lines 74 and 76). -/
def truncCell (k : Nat) (v : Cell) : Cell :=
  Cell.str (strTake (pyStr v) k)

/-- Lines 73-76: if the column is present, replace it by its string form
truncated to k characters. -/
def truncCol (df : DataFrame) (c : String) (k : Nat) : DataFrame :=
  if c ∈ df.cols then
    ⟨df.cols, df.rows.map (fun r => (r.1, mapCell df.cols r.2 c (truncCell k)))⟩
  else df

/-- Line 66: the allow-listed table columns present in the input, in
allow-list order. -/
def availableTableCols (cols : List String) : List String :=
  TABLE_COLUMNS.filter (fun c => decide (c ∈ cols))

/-- Line 85: table columns followed by the present extra detail columns. -/
def allDetailCols (cols : List String) : List String :=
  availableTableCols cols ++ DETAIL_COLUMNS.filter (fun c => decide (c ∈ cols))

/-- Lines 64-76: the table projection, with row_id added (line 70) and the
two text columns truncated afterwards (lines 73-76). -/
def tableDfFull (cols : List String) (data : List (List Cell)) : DataFrame :=
  truncCol
    (truncCol (addRowId (selectCols (readCsv cols data) (availableTableCols cols)))
      "property_description" 500)
    "evidence" 300

/-- Pseudo-random key stream of the sampler, seeded.  Models the fixed
random_state generator driving DataFrame.sample; the exact numpy stream is
not reproduced, but like it the key depends only on the seed. -/
def sampleKey (seed i : Nat) : Nat :=
  (1103515245 * (seed + i) + 12345) % 2147483648

/-- The positions DataFrame.sample(n, random_state seed) keeps: a
deterministic pseudo-random selection of n distinct positions out of
0..N-1, obtained by ordering the positions by their key and taking the
first n.  Deterministic in (seed, n, N), as pandas sampling is in
(random_state, n, len). -/
def sampleIndices (seed n N : Nat) : List Nat :=
  ((List.range N).insertionSort (fun i j => sampleKey seed i ≤ sampleKey seed j)).take n

/-- df.sample(n, random_state seed) (line 91): the selected rows keep
their original index labels. -/
def sampleRows (df : DataFrame) (n seed : Nat) : DataFrame :=
  ⟨df.cols, (sampleIndices seed n df.rows.length).map (fun i => df.rows.getD i (0, []))⟩

/-- Lines 84-93: the detail projection, subsampled with random_state 42
when larger than max_detail_rows (lines 89-91), then row_id added from the
(preserved) index labels (line 93). -/
def detailDfFull (cols : List String) (data : List (List Cell)) (maxDetailRows : Nat) :
    DataFrame :=
  let d0 := selectCols (readCsv cols data) (allDetailCols cols)
  addRowId (if maxDetailRows < d0.rows.length then sampleRows d0 maxDetailRows 42 else d0)

/-- CSV field quoting as done by to_csv: quote when the field holds the
delimiter, a quote or a line break, doubling inner quotes. -/
def csvEscape (s : String) : String :=
  if s.data.any (fun ch => ch = ',' || ch = '"' || ch = '\n' || ch = '\r') then
    "\"" ++ String.mk (s.data.flatMap (fun ch => if ch = '"' then ['"', '"'] else [ch])) ++ "\""
  else s

/-- One CSV field per cell: NaN serializes as the empty field. -/
def cellField : Cell → String
  | Cell.na => ""
  | Cell.str s => csvEscape s
  | Cell.nat n => toString n

/-- to_csv with index False (lines 80 and 97): the header record followed
by one record per row. -/
def csvRecords (df : DataFrame) : List String :=
  String.intercalate "," (df.cols.map csvEscape) ::
    df.rows.map (fun r => String.intercalate "," (r.2.map cellField))

/-- The CSV file content: every record terminated by a newline. -/
def toCsvContent (df : DataFrame) : String :=
  String.join ((csvRecords df).map (fun r => r ++ "\n"))

/-- Key by which the model orders Python set iteration. -/
def strKey (s : String) : Nat :=
  s.data.foldl (fun a c => (a * 31 + c.toNat) % 2147483648) 7

/-- Python list(set(xs)) (line 132): the elements of xs without duplicates
in the hash-table iteration order, which is hash-dependent and unspecified
and in particular does not track insertion order (CPython randomizes
string hashes per process).  Modelled deterministically: the deduplicated
elements ordered by a fixed string key. -/
def pySetList (xs : List String) : List String :=
  (xs.dedup).insertionSort (fun a b => strKey a ≤ strKey b)

/-- The JSON manifest data_index.json (lines 126-135). -/
structure Manifest where
  total_rows : Nat
  table_rows : Nat
  detail_rows : Nat
  columns_table : List String
  columns_detail : List String
  row_id_mapping : Option (List Cell)
deriving DecidableEq

/-- detail_df[row_id].tolist(): the row_id column read off row by row. -/
def rowIdColumn (df : DataFrame) : List Cell :=
  df.rows.map (fun r => getCell df.cols r.2 "row_id")

/-- Lines 126-135: the manifest.  row_id_mapping is the row_id column of
the detail frame when fewer detail rows than original rows remain, and
null (None) otherwise. -/
def manifestOf (cols : List String) (data : List (List Cell)) (maxDetailRows : Nat) :
    Manifest :=
  let tdf := tableDfFull cols data
  let ddf := detailDfFull cols data maxDetailRows
  ⟨data.length, tdf.rows.length, ddf.rows.length,
   availableTableCols cols, pySetList (allDetailCols cols),
   if ddf.rows.length < data.length then some (rowIdColumn ddf) else none⟩

/-- The two-byte gzip magic header.  The DEFLATE body is modelled as the
raw payload: the codec itself lives in the gzip library, whose contract is
lossless round-tripping; what the script contributes, and what is modelled
exactly, is which bytes are compressed. -/
def gzHeader : List Char :=
  [Char.ofNat 31, Char.ofNat 139]

/-- gzip compression of a byte string (lines 104-113 compress the bytes
read back from the just-written CSV files). -/
def gzipCompress (s : String) : String :=
  String.mk (gzHeader ++ s.data)

/-- gzip decompression: strips the header, failing on a malformed file. -/
def gzipDecompress (s : String) : Option String :=
  if s.data.take gzHeader.length = gzHeader then
    some (String.mk (s.data.drop gzHeader.length))
  else none

/-- to_parquet (lines 118-119): the content is opaque to every claim, only
which files get written matters; modelled as a tagged serialization. -/
def parquetContent (df : DataFrame) : String :=
  "PAR1" ++ toCsvContent df

/-- Whether the Parquet step (lines 116-122) succeeds, raises ImportError
(caught at line 121), or raises some other exception (uncaught there). -/
inductive ParquetSupport where
  | ok : ParquetSupport
  | importError : ParquetSupport
  | otherError : ParquetSupport
deriving DecidableEq

/-- The output directory, fixed file names (spec section 6): file contents
for the six data files, the parsed manifest, and whether the directory
exists (mkdir at line 62 creates it). -/
structure OutDir where
  dirExists : Bool
  tableCsv : Option String
  detailCsv : Option String
  tableGz : Option String
  detailGz : Option String
  tableParquet : Option String
  detailParquet : Option String
  dataIndex : Option Manifest
deriving DecidableEq

/-- optimize_csv_data (lines 45-158) as a state transformer on the output
directory: creates the directory, writes the table CSV, the detail CSV,
then the two gzip files from the exact CSV contents just written, then
attempts Parquet; an uncaught Parquet exception propagates before the
manifest write (modelled at the first Parquet write), an ImportError skips
Parquet, and otherwise both Parquet files are written; finally the
manifest.  Returns the directory state and whether the call returned
normally (false models an uncaught exception). -/
def optimize_csv_data (cols : List String) (data : List (List Cell)) (fs : OutDir)
    (maxDetailRows : Nat) (pq : ParquetSupport) : OutDir × Bool :=
  let tdf := tableDfFull cols data
  let ddf := detailDfFull cols data maxDetailRows
  let t := toCsvContent tdf
  let d := toCsvContent ddf
  match pq with
  | ParquetSupport.otherError =>
      (⟨true, some t, some d, some (gzipCompress t), some (gzipCompress d),
        fs.tableParquet, fs.detailParquet, fs.dataIndex⟩, false)
  | ParquetSupport.importError =>
      (⟨true, some t, some d, some (gzipCompress t), some (gzipCompress d),
        fs.tableParquet, fs.detailParquet,
        some (manifestOf cols data maxDetailRows)⟩, true)
  | ParquetSupport.ok =>
      (⟨true, some t, some d, some (gzipCompress t), some (gzipCompress d),
        some (parquetContent tdf), some (parquetContent ddf),
        some (manifestOf cols data maxDetailRows)⟩, true)

/-- main (lines 160-185): exits 1 without touching the filesystem when the
input file is missing (lines 169-171, checked before anything runs), else
runs the pipeline inside a catch-all, exiting 0 on normal return and 1 on
any exception (lines 183-185). -/
def main (inputExists : Bool) (cols : List String) (data : List (List Cell))
    (fs : OutDir) (maxDetailRows : Nat) (pq : ParquetSupport) : Nat × OutDir :=
  if inputExists then
    let r := optimize_csv_data cols data fs maxDetailRows pq
    (if r.2 then 0 else 1, r.1)
  else (1, fs)

/-! ### Basic lemmas about the embedding -/

theorem strTake_length_le (s : String) (k : Nat) : (strTake s k).length ≤ k := by
  have h : (strTake s k).length = (s.data.take k).length := rfl
  rw [h, List.length_take]
  exact min_le_left _ _

theorem pyStr_na_length : (pyStr Cell.na).length = 3 := by decide

theorem mapCell_not_mem (cs : List String) (vs : List Cell) (t : String) (f : Cell → Cell)
    (h : t ∉ cs) : mapCell cs vs t f = vs := by
  induction cs generalizing vs with
  | nil => rfl
  | cons c cs ih =>
    cases vs with
    | nil => rfl
    | cons v vs =>
      have hc : ¬ c = t := by
        intro e
        exact h (by simp [e])
      have hrest : t ∉ cs := fun hm => h (List.mem_cons_of_mem _ hm)
      simp [mapCell, hc, ih vs hrest]

theorem getCell_mapCell_ne (cs : List String) (vs : List Cell) (t c : String)
    (f : Cell → Cell) (hne : c ≠ t) :
    getCell cs (mapCell cs vs t f) c = getCell cs vs c := by
  induction cs generalizing vs with
  | nil => rfl
  | cons c0 cs ih =>
    cases vs with
    | nil => rfl
    | cons v vs =>
      by_cases h0 : c0 = t
      · subst h0
        have hct : ¬ c0 = c := fun e => hne (e.symm ▸ rfl)
        simp [mapCell, getCell, hct]
      · by_cases h1 : c0 = c
        · subst h1
          simp [mapCell, getCell, h0, hne]
        · simp [mapCell, getCell, h0, h1, ih vs]

theorem getCell_append_last (sel : List String) (vs : List Cell) (t : String) (v : Cell)
    (hmem : t ∉ sel) (hlen : vs.length = sel.length) :
    getCell (sel ++ [t]) (vs ++ [v]) t = v := by
  induction sel generalizing vs with
  | nil =>
    have hv : vs = [] := List.length_eq_zero.mp hlen
    subst hv
    simp [getCell]
  | cons c cs ih =>
    cases vs with
    | nil => simp at hlen
    | cons v0 vs =>
      have hc : ¬ c = t := by
        intro e
        exact hmem (by simp [e])
      have hrest : t ∉ cs := fun hm => hmem (List.mem_cons_of_mem _ hm)
      have hlen2 : vs.length = cs.length := by simpa using hlen
      simp [getCell, hc]
      exact ih vs hrest hlen2

theorem getCell_mapCell_trunc (cs : List String) (vs : List Cell) (c : String) (k : Nat)
    (h3 : 3 ≤ k) :
    (pyStr (getCell cs (mapCell cs vs c (truncCell k)) c)).length ≤ k := by
  induction cs generalizing vs with
  | nil =>
    simpa [getCell, mapCell, pyStr_na_length] using h3
  | cons c0 cs ih =>
    cases vs with
    | nil =>
      simpa [getCell, mapCell, pyStr_na_length] using h3
    | cons v vs =>
      by_cases h0 : c0 = c
      · subst h0
        simp only [mapCell, getCell, if_pos rfl]
        simpa [truncCell, pyStr] using strTake_length_le (pyStr v) k
      · simp only [mapCell, getCell, if_neg h0]
        exact ih vs

theorem selectCols_readCsv_rows (cols : List String) (data : List (List Cell))
    (sel : List String) :
    (selectCols (readCsv cols data) sel).rows =
      (List.range data.length).map (fun i => (i, sel.map (getCell cols (data.getD i [])))) := by
  simp [selectCols, readCsv, List.map_map]

theorem truncCol_cols (df : DataFrame) (c : String) (k : Nat) :
    (truncCol df c k).cols = df.cols := by
  unfold truncCol
  split <;> rfl

theorem truncCol_rows (df : DataFrame) (c : String) (k : Nat) :
    (truncCol df c k).rows =
      df.rows.map (fun r => (r.1, mapCell df.cols r.2 c (truncCell k))) := by
  unfold truncCol
  split
  · rfl
  · rename_i h
    have heach : ∀ r ∈ df.rows, r = (r.1, mapCell df.cols r.2 c (truncCell k)) := by
      intro r _
      rw [mapCell_not_mem _ _ _ _ h]
    calc df.rows = df.rows.map id := (List.map_id _).symm
      _ = df.rows.map (fun r => (r.1, mapCell df.cols r.2 c (truncCell k))) :=
        List.map_congr_left (fun r hr => heach r hr)

theorem tableDf_cols (cols : List String) (data : List (List Cell)) :
    (tableDfFull cols data).cols = availableTableCols cols ++ ["row_id"] := by
  simp [tableDfFull, truncCol_cols, addRowId, selectCols]

theorem tableDf_rows (cols : List String) (data : List (List Cell)) :
    (tableDfFull cols data).rows =
      (List.range data.length).map (fun i =>
        (i, mapCell (availableTableCols cols ++ ["row_id"])
              (mapCell (availableTableCols cols ++ ["row_id"])
                ((availableTableCols cols).map (getCell cols (data.getD i [])) ++ [Cell.nat i])
                "property_description" (truncCell 500))
              "evidence" (truncCell 300))) := by
  unfold tableDfFull
  rw [truncCol_rows, truncCol_cols, truncCol_rows]
  simp [addRowId, selectCols, readCsv, List.map_map]

theorem tableDf_length (cols : List String) (data : List (List Cell)) :
    (tableDfFull cols data).rows.length = data.length := by
  simp [tableDf_rows]

theorem sampleIndices_length (seed n N : Nat) :
    (sampleIndices seed n N).length = min n N := by
  have hp := List.perm_insertionSort
    (fun i j => sampleKey seed i ≤ sampleKey seed j) (List.range N)
  simp [sampleIndices, List.length_take, hp.length_eq]

theorem sampleIndices_lt (seed n N i : Nat) (hmem : i ∈ sampleIndices seed n N) : i < N := by
  have h1 := List.mem_of_mem_take hmem
  have hp := List.perm_insertionSort
    (fun i j => sampleKey seed i ≤ sampleKey seed j) (List.range N)
  have h2 := hp.mem_iff.mp h1
  simpa using h2

theorem getD_map_range {α : Type} (g : Nat → α) (N i : Nat) (h : i < N) (d : α) :
    ((List.range N).map g).getD i d = g i := by
  simp [List.getD_eq_getElem?_getD, List.getElem?_map, List.getElem?_range h]

theorem detailDf_cols (cols : List String) (data : List (List Cell)) (m : Nat) :
    (detailDfFull cols data m).cols = allDetailCols cols ++ ["row_id"] := by
  simp only [detailDfFull]
  by_cases h : m < (selectCols (readCsv cols data) (allDetailCols cols)).rows.length
  · rw [if_pos h]
    rfl
  · rw [if_neg h]
    rfl

theorem detailDf_length (cols : List String) (data : List (List Cell)) (m : Nat) :
    (detailDfFull cols data m).rows.length = min m data.length := by
  have hN : (selectCols (readCsv cols data) (allDetailCols cols)).rows.length = data.length := by
    simp [selectCols, readCsv]
  simp only [detailDfFull]
  by_cases h : m < (selectCols (readCsv cols data) (allDetailCols cols)).rows.length
  · have hm : m < data.length := by rw [hN] at h; exact h
    rw [if_pos h]
    simp only [addRowId, sampleRows, List.length_map, sampleIndices_length, hN]
  · have hm : ¬ m < data.length := by rw [hN] at h; exact h
    rw [if_neg h]
    simp only [addRowId, List.length_map, hN]
    omega

theorem detailDf_mem (cols : List String) (data : List (List Cell)) (m : Nat)
    (r : Nat × List Cell) (hr : r ∈ (detailDfFull cols data m).rows) :
    ∃ i, i < data.length ∧
      r = (i, (allDetailCols cols).map (getCell cols (data.getD i [])) ++ [Cell.nat i]) := by
  have hd0 := selectCols_readCsv_rows cols data (allDetailCols cols)
  unfold detailDfFull at hr
  simp only [addRowId, List.mem_map] at hr
  obtain ⟨r1, hr1, hre⟩ := hr
  by_cases h : m < (selectCols (readCsv cols data) (allDetailCols cols)).rows.length
  · rw [if_pos h] at hr1
    simp only [sampleRows, List.mem_map] at hr1
    obtain ⟨i, hi, hie⟩ := hr1
    have hiN : i < data.length := by
      have := sampleIndices_lt 42 m _ i hi
      rw [hd0] at this
      simpa using this
    refine ⟨i, hiN, ?_⟩
    rw [hd0] at hie
    rw [getD_map_range _ _ _ hiN] at hie
    rw [← hre, ← hie]
  · rw [if_neg h] at hr1
    rw [hd0] at hr1
    simp only [List.mem_map, List.mem_range] at hr1
    obtain ⟨i, hiN, hie⟩ := hr1
    refine ⟨i, hiN, ?_⟩
    rw [← hre, ← hie]

theorem rowId_not_mem_availableTableCols (cols : List String) :
    "row_id" ∉ availableTableCols cols := by
  intro h
  exact absurd (List.mem_of_mem_filter h) (by decide)

theorem rowId_not_mem_allDetailCols (cols : List String) :
    "row_id" ∉ allDetailCols cols := by
  intro h
  rcases List.mem_append.mp h with h | h
  · exact rowId_not_mem_availableTableCols cols h
  · exact absurd (List.mem_of_mem_filter h) (by decide)

theorem allDetailCols_nodup (cols : List String) : (allDetailCols cols).Nodup := by
  apply List.Nodup.append
  · exact (by decide : TABLE_COLUMNS.Nodup).filter _
  · exact (by decide : DETAIL_COLUMNS.Nodup).filter _
  · intro a ha hb
    have hdis : ∀ x ∈ TABLE_COLUMNS, x ∉ DETAIL_COLUMNS := by decide
    exact hdis a (List.mem_of_mem_filter ha) (List.mem_of_mem_filter hb)

theorem gzip_roundtrip (s : String) : gzipDecompress (gzipCompress s) = some s := by
  have hdata : (gzipCompress s).data = gzHeader ++ s.data := rfl
  unfold gzipDecompress
  rw [hdata, List.take_left, if_pos rfl, List.drop_left]

/-! ### Claim theorems -/

/-- C4: for every input CSV with N rows, the table output contains exactly
N data rows plus one header row, and the table projection itself has one
row per original row (it is never subsampled). -/
theorem table_file_rows_exact (cols : List String) (data : List (List Cell)) :
    (csvRecords (tableDfFull cols data)).length = data.length + 1 ∧
    (tableDfFull cols data).rows.length = data.length := by
  refine ⟨?_, tableDf_length cols data⟩
  simp [csvRecords, tableDf_length]

/-- C3: in every row of the table projection the property_description
value has at most 500 characters and the evidence value at most 300. -/
theorem table_truncation_bounds (cols : List String) (data : List (List Cell))
    (r : Nat × List Cell) (hr : r ∈ (tableDfFull cols data).rows) :
    (pyStr (getCell (tableDfFull cols data).cols r.2 "property_description")).length ≤ 500 ∧
    (pyStr (getCell (tableDfFull cols data).cols r.2 "evidence")).length ≤ 300 := by
  rw [tableDf_rows] at hr
  simp only [List.mem_map, List.mem_range] at hr
  obtain ⟨i, hiN, hie⟩ := hr
  rw [tableDf_cols, ← hie]
  constructor
  · rw [getCell_mapCell_ne _ _ _ _ _
      (by decide : ("property_description" : String) ≠ "evidence")]
    exact getCell_mapCell_trunc _ _ _ _ (by omega)
  · exact getCell_mapCell_trunc _ _ _ _ (by omega)

/-- Witness for C3 at a one-row CSV holding both truncated columns. -/
theorem table_truncation_bounds_witness :
    (pyStr (getCell (tableDfFull ["property_description", "evidence"]
        [[Cell.str "abc", Cell.na]]).cols
      ((tableDfFull ["property_description", "evidence"]
        [[Cell.str "abc", Cell.na]]).rows.getD 0 (0, [])).2
      "property_description")).length ≤ 500 ∧
    (pyStr (getCell (tableDfFull ["property_description", "evidence"]
        [[Cell.str "abc", Cell.na]]).cols
      ((tableDfFull ["property_description", "evidence"]
        [[Cell.str "abc", Cell.na]]).rows.getD 0 (0, [])).2
      "evidence")).length ≤ 300 :=
  table_truncation_bounds _ _ _ (by decide)

/-- C2: in the table projection the row_id column of the k-th row equals
k, its zero-based position (table rows are in original order, so that is
also the original position); and every detail row carries as row_id the
zero-based original position of the row whose projected cells it holds,
also after subsampling. -/
theorem row_id_links_rows (cols : List String) (data : List (List Cell)) (m : Nat) :
    (∀ k (h : k < (tableDfFull cols data).rows.length),
        ((tableDfFull cols data).rows.get ⟨k, h⟩).1 = k ∧
        getCell (tableDfFull cols data).cols
          ((tableDfFull cols data).rows.get ⟨k, h⟩).2 "row_id" = Cell.nat k) ∧
    (∀ r ∈ (detailDfFull cols data m).rows,
        ∃ i, i < data.length ∧
          getCell (detailDfFull cols data m).cols r.2 "row_id" = Cell.nat i ∧
          r = (i, (allDetailCols cols).map (getCell cols (data.getD i []))
                ++ [Cell.nat i])) := by
  constructor
  · intro k h
    have hget : (tableDfFull cols data).rows.get ⟨k, h⟩
        = (k, mapCell (availableTableCols cols ++ ["row_id"])
              (mapCell (availableTableCols cols ++ ["row_id"])
                ((availableTableCols cols).map (getCell cols (data.getD k [])) ++ [Cell.nat k])
                "property_description" (truncCell 500))
              "evidence" (truncCell 300)) := by
      simp [tableDf_rows]
    rw [tableDf_cols, hget]
    refine ⟨rfl, ?_⟩
    rw [getCell_mapCell_ne _ _ _ _ _ (by decide : ("row_id" : String) ≠ "evidence")]
    rw [getCell_mapCell_ne _ _ _ _ _
      (by decide : ("row_id" : String) ≠ "property_description")]
    exact getCell_append_last _ _ _ _ (rowId_not_mem_availableTableCols cols) (by simp)
  · intro r hr
    obtain ⟨i, hiN, hre⟩ := detailDf_mem cols data m r hr
    refine ⟨i, hiN, ?_, hre⟩
    rw [detailDf_cols, hre]
    exact getCell_append_last _ _ _ _ (rowId_not_mem_allDetailCols cols) (by simp)

/-- Witness for C2 at a two-row CSV with max_detail_rows 1, exercising the
subsampled branch of the detail projection. -/
theorem row_id_links_rows_witness :
    (((tableDfFull ["prompt"] [[Cell.str "a"], [Cell.str "b"]]).rows.get
        ⟨0, by decide⟩).1 = 0 ∧
      getCell (tableDfFull ["prompt"] [[Cell.str "a"], [Cell.str "b"]]).cols
        ((tableDfFull ["prompt"] [[Cell.str "a"], [Cell.str "b"]]).rows.get
          ⟨0, by decide⟩).2 "row_id" = Cell.nat 0) ∧
    (∃ i, i < 2 ∧
      getCell (detailDfFull ["prompt"] [[Cell.str "a"], [Cell.str "b"]] 1).cols
        ((detailDfFull ["prompt"] [[Cell.str "a"], [Cell.str "b"]] 1).rows.getD 0
          (0, [])).2 "row_id" = Cell.nat i ∧
      (detailDfFull ["prompt"] [[Cell.str "a"], [Cell.str "b"]] 1).rows.getD 0 (0, [])
        = (i, (allDetailCols ["prompt"]).map
            (getCell ["prompt"] ([[Cell.str "a"], [Cell.str "b"]].getD i []))
            ++ [Cell.nat i])) :=
  ⟨(row_id_links_rows ["prompt"] [[Cell.str "a"], [Cell.str "b"]] 1).1 0 (by decide),
   (row_id_links_rows ["prompt"] [[Cell.str "a"], [Cell.str "b"]] 1).2 _ (by decide)⟩

/-- C1: with N input rows, if N is at most max_detail_rows the detail
projection keeps all N rows and the manifest row_id_mapping is null; if N
exceeds the cap, the detail projection has exactly max_detail_rows rows
and row_id_mapping is a list of exactly that many entries, each the
identifier of an original row in [0, N). -/
theorem detail_cap_and_mapping (cols : List String) (data : List (List Cell)) (m : Nat) :
    (data.length ≤ m →
      (detailDfFull cols data m).rows.length = data.length ∧
      (manifestOf cols data m).row_id_mapping = none) ∧
    (m < data.length →
      (detailDfFull cols data m).rows.length = m ∧
      ∃ l, (manifestOf cols data m).row_id_mapping = some l ∧ l.length = m ∧
        ∀ x ∈ l, ∃ k, k < data.length ∧ x = Cell.nat k) := by
  have hlen := detailDf_length cols data m
  constructor
  · intro hle
    have h1 : (detailDfFull cols data m).rows.length = data.length := by omega
    refine ⟨h1, ?_⟩
    have hcond : ¬ ((detailDfFull cols data m).rows.length < data.length) := by omega
    simp [manifestOf, hcond]
  · intro hlt
    have h1 : (detailDfFull cols data m).rows.length = m := by omega
    refine ⟨h1, ?_⟩
    have hcond : (detailDfFull cols data m).rows.length < data.length := by omega
    refine ⟨rowIdColumn (detailDfFull cols data m), ?_, ?_, ?_⟩
    · simp [manifestOf, hcond]
    · simp [rowIdColumn, h1]
    · intro x hx
      simp only [rowIdColumn, List.mem_map] at hx
      obtain ⟨r, hr, hxe⟩ := hx
      obtain ⟨i, hiN, hre⟩ := detailDf_mem cols data m r hr
      refine ⟨i, hiN, ?_⟩
      rw [← hxe, hre, detailDf_cols]
      exact getCell_append_last _ _ _ _ (rowId_not_mem_allDetailCols cols) (by simp)

/-- Witness for C1: the same two-row CSV once under the cap (cap 3, no
sampling, null mapping) and once over it (cap 1, one sampled row, one
mapping entry below 2). -/
theorem detail_cap_and_mapping_witness :
    ((detailDfFull ["prompt"] [[Cell.str "a"], [Cell.str "b"]] 3).rows.length = 2 ∧
      (manifestOf ["prompt"] [[Cell.str "a"], [Cell.str "b"]] 3).row_id_mapping = none) ∧
    ((detailDfFull ["prompt"] [[Cell.str "a"], [Cell.str "b"]] 1).rows.length = 1 ∧
      ∃ l, (manifestOf ["prompt"] [[Cell.str "a"], [Cell.str "b"]] 1).row_id_mapping
          = some l ∧ l.length = 1 ∧ ∀ x ∈ l, ∃ k, k < 2 ∧ x = Cell.nat k) :=
  ⟨(detail_cap_and_mapping ["prompt"] [[Cell.str "a"], [Cell.str "b"]] 3).1 (by decide),
   (detail_cap_and_mapping ["prompt"] [[Cell.str "a"], [Cell.str "b"]] 1).2 (by decide)⟩

/-- C5: two runs on the same input with the same cap write the same detail
CSV bytes, whatever the prior output-directory state and whatever the
Parquet support, and the content is the one fixed deterministic sample;
hence both runs retain exactly the same set of original row identifiers
(the fixed random_state 42 seeds the sampler identically each run). -/
theorem sampling_deterministic (cols : List String) (data : List (List Cell)) (m : Nat)
    (fs1 fs2 : OutDir) (pq1 pq2 : ParquetSupport) :
    (optimize_csv_data cols data fs1 m pq1).1.detailCsv
      = (optimize_csv_data cols data fs2 m pq2).1.detailCsv ∧
    (optimize_csv_data cols data fs1 m pq1).1.detailCsv
      = some (toCsvContent (detailDfFull cols data m)) := by
  cases pq1 <;> cases pq2 <;> exact ⟨rfl, rfl⟩

/-- C6 counterexample: on a CSV holding the columns prompt, model and
model_1_response, the manifest detail column list does not equal the list
of columns actually used for the detail projection (table columns followed
by the extra detail columns): Python list(set(..)) loses that order. -/
theorem manifest_detail_cols_counterexample :
    (manifestOf ["prompt", "model", "model_1_response"]
        [[Cell.str "a", Cell.str "b", Cell.str "c"]] 10).columns_detail
      ≠ allDetailCols ["prompt", "model", "model_1_response"] := by decide

/-- C6 amended: the manifest records the original row count, the table row
count, the detail row count, available_columns.table exactly as the
allow-listed table columns present in the input in allow-list order, and
available_columns.detail holding exactly the columns actually used for the
detail projection without duplicates but in an unspecified set-iteration
order rather than table-then-extra order. -/
theorem manifest_contents (cols : List String) (data : List (List Cell)) (m : Nat) :
    (manifestOf cols data m).total_rows = data.length ∧
    (manifestOf cols data m).table_rows = (tableDfFull cols data).rows.length ∧
    (manifestOf cols data m).detail_rows = (detailDfFull cols data m).rows.length ∧
    (manifestOf cols data m).columns_table = availableTableCols cols ∧
    (manifestOf cols data m).columns_detail.Perm (allDetailCols cols) ∧
    (manifestOf cols data m).columns_detail.Nodup := by
  have h1 : (manifestOf cols data m).columns_detail.Perm ((allDetailCols cols).dedup) :=
    List.perm_insertionSort _ _
  have h2 : (allDetailCols cols).dedup = allDetailCols cols :=
    List.dedup_eq_self.mpr (allDetailCols_nodup cols)
  rw [h2] at h1
  exact ⟨rfl, rfl, rfl, rfl, h1, h1.nodup_iff.mpr (allDetailCols_nodup cols)⟩

/-- C7: when Parquet support is unavailable (ImportError) the run still
succeeds with exit code 0, both CSV files, both gzip files and the JSON
manifest are written, and the Parquet files are left untouched. -/
theorem parquet_import_error_still_succeeds (cols : List String) (data : List (List Cell))
    (fs : OutDir) (m : Nat) :
    (main true cols data fs m ParquetSupport.importError).1 = 0 ∧
    (main true cols data fs m ParquetSupport.importError).2.tableCsv
      = some (toCsvContent (tableDfFull cols data)) ∧
    (main true cols data fs m ParquetSupport.importError).2.detailCsv
      = some (toCsvContent (detailDfFull cols data m)) ∧
    (main true cols data fs m ParquetSupport.importError).2.tableGz
      = some (gzipCompress (toCsvContent (tableDfFull cols data))) ∧
    (main true cols data fs m ParquetSupport.importError).2.detailGz
      = some (gzipCompress (toCsvContent (detailDfFull cols data m))) ∧
    (main true cols data fs m ParquetSupport.importError).2.dataIndex
      = some (manifestOf cols data m) ∧
    (main true cols data fs m ParquetSupport.importError).2.tableParquet
      = fs.tableParquet ∧
    (main true cols data fs m ParquetSupport.importError).2.detailParquet
      = fs.detailParquet :=
  ⟨rfl, rfl, rfl, rfl, rfl, rfl, rfl, rfl⟩

/-- C8: a missing input file makes main exit 1 before anything runs, with
the entire output-directory state (directory existence included) exactly
as it was. -/
theorem missing_input_no_side_effects (cols : List String) (data : List (List Cell))
    (fs : OutDir) (m : Nat) (pq : ParquetSupport) :
    main false cols data fs m pq = (1, fs) := rfl

/-- C9: in every run the gzip outputs are the compression of exactly the
CSV contents written by that run, and decompressing them gives those CSV
bytes back. -/
theorem gzip_outputs_roundtrip (cols : List String) (data : List (List Cell))
    (fs : OutDir) (m : Nat) (pq : ParquetSupport) :
    ∃ t d : String,
      (optimize_csv_data cols data fs m pq).1.tableCsv = some t ∧
      (optimize_csv_data cols data fs m pq).1.detailCsv = some d ∧
      (optimize_csv_data cols data fs m pq).1.tableGz = some (gzipCompress t) ∧
      (optimize_csv_data cols data fs m pq).1.detailGz = some (gzipCompress d) ∧
      gzipDecompress (gzipCompress t) = some t ∧
      gzipDecompress (gzipCompress d) = some d := by
  refine ⟨toCsvContent (tableDfFull cols data), toCsvContent (detailDfFull cols data m),
    ?_, ?_, ?_, ?_, gzip_roundtrip _, gzip_roundtrip _⟩ <;> cases pq <;> rfl

/-- C10: when the Parquet step raises a non-ImportError exception the run
exits 1 with the two CSV files and the two gzip files already written and
the manifest never written by this run: dataIndex (and the Parquet slots)
keep their prior state, so starting from an empty directory the observable
outcome is a partially populated directory without data_index.json. -/
theorem parquet_failure_partial_output (cols : List String) (data : List (List Cell))
    (fs : OutDir) (m : Nat) :
    (main true cols data fs m ParquetSupport.otherError).1 = 1 ∧
    (main true cols data fs m ParquetSupport.otherError).2.tableCsv
      = some (toCsvContent (tableDfFull cols data)) ∧
    (main true cols data fs m ParquetSupport.otherError).2.detailCsv
      = some (toCsvContent (detailDfFull cols data m)) ∧
    (main true cols data fs m ParquetSupport.otherError).2.tableGz
      = some (gzipCompress (toCsvContent (tableDfFull cols data))) ∧
    (main true cols data fs m ParquetSupport.otherError).2.detailGz
      = some (gzipCompress (toCsvContent (detailDfFull cols data m))) ∧
    (main true cols data fs m ParquetSupport.otherError).2.dataIndex = fs.dataIndex ∧
    (main true cols data fs m ParquetSupport.otherError).2.tableParquet
      = fs.tableParquet ∧
    (main true cols data fs m ParquetSupport.otherError).2.detailParquet
      = fs.detailParquet :=
  ⟨rfl, rfl, rfl, rfl, rfl, rfl, rfl, rfl⟩

end OptimizeData
